import Mathlib

/-!
Verification of InfoBot (src/InfoBot.py) against its specification.

The bot's Python strings are embedded as `List Char` (`PyStr`); a message
dict is the structure `Msg` holding the seventeen fields the bot reads, each
stored as the text Python interpolates for it with `%s` (numeric and boolean
fields appear only through `%s`, so their rendered form is all the bot ever
sees).  Mutation of the dict is made explicit: `parse_message` returns the
output string together with the updated record, and `respond` returns the
updated record together with the list of outbound sends.
-/

/-- Python strings, embedded as lists of characters. -/
abbrev PyStr := List Char

/-- The tab character. -/
def tabChar : Char := '\t'

/-- The newline character. -/
def nlChar : Char := '\n'

/-- The double-quote character. -/
def quotChar : Char := Char.ofNat 34

/-- The back-tick character. -/
def btickChar : Char := Char.ofNat 96

/-- Python `s.lower()` on the characters the bot handles. -/
def lower (s : PyStr) : PyStr := s.map Char.toLower

/-- Python `s.replace(old, new)` for a single-character `old`, the only form
the bot uses (the patterns are a newline, a tab, a double quote and a
back-tick). -/
def replaceChar (old : Char) (new : PyStr) : PyStr → PyStr
  | [] => []
  | c :: rest => (if c = old then new else [c]) ++ replaceChar old new rest

/-- The format spec `{:<20}` the bot applies to each field label:
left-justify in a field of width 20, padding with spaces. -/
def pad20 (s : PyStr) : PyStr := s ++ List.replicate (20 - s.length) ' '

/-- The six tabs inserted after each embedded newline in boxed non-verbose
output. -/
def sixTabs : PyStr := List.replicate 6 tabChar

/-- The two characters Python writes for the escape of a newline
(a backslash followed by the letter n). -/
def escapedNl : PyStr := ['\\', 'n']

/-- A user record inside `display_recipient` of a private message; every
field is stored as the text `%s` renders for it. -/
structure Recipient where
  full_name : PyStr
  short_name : PyStr
  id : PyStr
  email : PyStr
  domain : PyStr
  is_mirror_dummy : PyStr
deriving DecidableEq

/-- The `display_recipient` entry of a message: the stream name for a
stream message, a list of user records for a private message. -/
inductive DisplayRecipient where
  | stream (name : PyStr)
  | users (l : List Recipient)
deriving DecidableEq

/-- The value Python interpolates when it uses `msg["display_recipient"]`
directly as text.  A non-private zulip message carries its stream name here;
the repr of a recipient list is never rendered on the paths the bot takes
for well-formed messages and is abstracted as the empty string. -/
def drValue : DisplayRecipient → PyStr
  | .stream s => s
  | .users _ => []

/-- The recipient list Python iterates over in `parse_display_recipient`;
that method is reached only for private messages, whose
`display_recipient` is a list. -/
def drUsers : DisplayRecipient → List Recipient
  | .stream _ => []
  | .users l => l

/-- An incoming zulip message, with exactly the fields the bot reads.
Every field other than `display_recipient` is stored as the text `%s`
renders for it. -/
structure Msg where
  content : PyStr
  recipient_id : PyStr
  type : PyStr
  display_recipient : DisplayRecipient
  subject : PyStr
  subject_links : PyStr
  id : PyStr
  timestamp : PyStr
  content_type : PyStr
  sender_full_name : PyStr
  sender_short_name : PyStr
  sender_id : PyStr
  sender_email : PyStr
  sender_domain : PyStr
  client : PyStr
  gravatar_hash : PyStr
  avatar_url : PyStr
deriving DecidableEq

/-- The keys of `self.parse_order` in `InfoBot.__init__`. -/
inductive FieldKey where
  | content | recipient_id | type | display_recipient | subject
  | subject_links | id | timestamp | content_type | sender_full_name
  | sender_short_name | sender_id | sender_email | sender_domain
  | client | gravatar_hash | avatar_url
deriving DecidableEq, Fintype

/-- The key string of each entry of `parse_order`. -/
def FieldKey.name : FieldKey → PyStr
  | .content => "content".toList
  | .recipient_id => "recipient_id".toList
  | .type => "type".toList
  | .display_recipient => "display_recipient".toList
  | .subject => "subject".toList
  | .subject_links => "subject_links".toList
  | .id => "id".toList
  | .timestamp => "timestamp".toList
  | .content_type => "content_type".toList
  | .sender_full_name => "sender_full_name".toList
  | .sender_short_name => "sender_short_name".toList
  | .sender_id => "sender_id".toList
  | .sender_email => "sender_email".toList
  | .sender_domain => "sender_domain".toList
  | .client => "client".toList
  | .gravatar_hash => "gravatar_hash".toList
  | .avatar_url => "avatar_url".toList

/-- The dict lookup `msg[key]` for a key of `parse_order`. -/
def FieldKey.get : FieldKey → Msg → PyStr
  | .content, m => m.content
  | .recipient_id, m => m.recipient_id
  | .type, m => m.type
  | .display_recipient, m => drValue m.display_recipient
  | .subject, m => m.subject
  | .subject_links, m => m.subject_links
  | .id, m => m.id
  | .timestamp, m => m.timestamp
  | .content_type, m => m.content_type
  | .sender_full_name, m => m.sender_full_name
  | .sender_short_name, m => m.sender_short_name
  | .sender_id, m => m.sender_id
  | .sender_email, m => m.sender_email
  | .sender_domain, m => m.sender_domain
  | .client, m => m.client
  | .gravatar_hash, m => m.gravatar_hash
  | .avatar_url, m => m.avatar_url

/-- `self.parse_order`: the custom display order of the message fields. -/
def parse_order : List FieldKey :=
  [.content, .recipient_id, .type, .display_recipient,
   .subject, .subject_links, .id, .timestamp, .content_type,
   .sender_full_name, .sender_short_name, .sender_id,
   .sender_email, .sender_domain, .client,
   .gravatar_hash, .avatar_url]

/-- The keys of `self.display_recipient_order`. -/
inductive DRKey where
  | full_name | short_name | id | email | domain | is_mirror_dummy
deriving DecidableEq, Fintype

/-- The key string of each entry of `display_recipient_order`. -/
def DRKey.name : DRKey → PyStr
  | .full_name => "full_name".toList
  | .short_name => "short_name".toList
  | .id => "id".toList
  | .email => "email".toList
  | .domain => "domain".toList
  | .is_mirror_dummy => "is_mirror_dummy".toList

/-- The dict lookup `display_recipient[key]` on a recipient record. -/
def DRKey.get : DRKey → Recipient → PyStr
  | .full_name, r => r.full_name
  | .short_name, r => r.short_name
  | .id, r => r.id
  | .email, r => r.email
  | .domain, r => r.domain
  | .is_mirror_dummy, r => r.is_mirror_dummy

/-- `self.display_recipient_order`. -/
def display_recipient_order : List DRKey :=
  [.full_name, .short_name, .id, .email, .domain, .is_mirror_dummy]

/-- The hint appended to every non-verbose reply. -/
def hintWantVerbose : PyStr :=
  "(Want verbose output? Say `InfoBot -v` or `InfoBot --verbose`!".toList

/-- The hint appended to every verbose reply. -/
def hintNoVerbose : PyStr :=
  "\n(Don\x27t want verbose output? Say just `InfoBot`!".toList

/-- The box-toggle hint, without the newline that precedes it. -/
def hintBoxTail : PyStr :=
  "You can also turn off box printing with `-nb` or `--no-box`!)".toList

/-- The box-toggle hint appended to every reply: a newline followed by
`hintBoxTail`. -/
def hintBoxToggle : PyStr := nlChar :: hintBoxTail

/-- The sentence appended to the destination text of a private verbose
reply. -/
def subjectEmptyPhrase : PyStr := "The subject was an empty string".toList

/-- The non-verbose lines of one recipient record: for each key of
`display_recipient_order`, a newline, two tabs, the label left-justified to
width twenty, then the value. -/
def recipientLines (r : Recipient) : PyStr :=
  List.flatten (display_recipient_order.map (fun k =>
    nlChar :: tabChar :: tabChar :: (pad20 (DRKey.name k) ++ DRKey.get k r)))

/-- The non-verbose recipient loop of `parse_display_recipient`, threading
the `first_newline` flag: one extra newline is inserted after the first
recipient only. -/
def pdrNonVerbose : List Recipient → Bool → PyStr
  | [], _ => []
  | r :: rest, firstNl =>
    recipientLines r ++ (if firstNl = false then [nlChar] else [])
      ++ pdrNonVerbose rest true

/-- The verbose sentence for one recipient, with the tense argument
(`to` for the first recipient, `by` for the rest). -/
def recipientSentence (tense : PyStr) (r : Recipient) : PyStr :=
  "\n\nThe message was sent ".toList ++ tense
    ++ " a zulip user with the full_name `\"".toList ++ r.full_name
    ++ "\"`, also known as short_name `\"".toList ++ r.short_name
    ++ "\"`, who has the id `".toList ++ r.id
    ++ "`, and an email of `".toList ++ r.email
    ++ "`.\n\nAlso, their domain is `".toList ++ r.domain
    ++ "` and is_mirror_dummy is `".toList ++ r.is_mirror_dummy
    ++ "`.\n\n".toList

/-- The verbose recipient loop of `parse_display_recipient`: the tense
starts at `to` and is `by` from the second recipient on. -/
def pdrVerbose : List Recipient → PyStr → PyStr
  | [], _ => []
  | r :: rest, tense => recipientSentence tense r ++ pdrVerbose rest "by".toList

/-- `InfoBot.parse_display_recipient`: renders the `display_recipient`
part of a private message. -/
def parse_display_recipient (msg : Msg) (verbose : Bool) : PyStr :=
  if verbose = false then pdrNonVerbose (drUsers msg.display_recipient) false
  else pdrVerbose (drUsers msg.display_recipient) "to".toList

/-- The content rewriting `parse_message` performs on `msg["content"]`
before formatting: newlines become the two-character escape when verbose,
newline plus six tabs when boxed, and are untouched otherwise. -/
def mutContent (c : PyStr) (verbose box : Bool) : PyStr :=
  if verbose = true then replaceChar nlChar escapedNl c
  else if box = true then replaceChar nlChar (nlChar :: sixTabs) c
  else c

/-- The record update performed by the start of `parse_message`. -/
def pmMutate (msg : Msg) (verbose box : Bool) : Msg :=
  { msg with content := mutContent msg.content verbose box }

/-- The non-verbose field lines: for each key of `parse_order`, a tab, the
label left-justified to width twenty, the value (with the
`display_recipient` value overriding the raw field), then a newline. -/
def nonVerboseLines (msg : Msg) (display_recipient : PyStr) : PyStr :=
  List.flatten (parse_order.map (fun k =>
    tabChar :: (pad20 (FieldKey.name k)
      ++ (if k = FieldKey.display_recipient then display_recipient
          else FieldKey.get k msg)
      ++ [nlChar])))

/-- The verbose paragraphs up to and including the destination-type
template, before the destination text is spliced in. -/
def vBodyPre (msg : Msg) : PyStr :=
  "A message with content `\"".toList ++ msg.content
    ++ "\"` was sent to recipient_id `".toList ++ msg.recipient_id
    ++ "`.\n\nThe destination was of type `\"".toList ++ msg.type
    ++ "\"` ".toList

/-- The verbose paragraphs after the destination text. -/
def vBodyPost (msg : Msg) : PyStr :=
  " , along with subject_links `".toList ++ msg.subject_links
    ++ "`.\n\nThe message has an id of `".toList ++ msg.id
    ++ "`, sent at timestamp `".toList ++ msg.timestamp
    ++ "`, and has the content_type `\"".toList ++ msg.content_type
    ++ "\"`.\n\nThe message came from sender_full_name `\"".toList ++ msg.sender_full_name
    ++ "\"`, known also as sender_short_name `\"".toList ++ msg.sender_short_name
    ++ "\"` who has a sender_id of `".toList ++ msg.sender_id
    ++ "`, and a sender_email of `".toList ++ msg.sender_email
    ++ "`.\n\nThe sender_domain is `".toList ++ msg.sender_domain
    ++ "`, using client `\"".toList ++ msg.client
    ++ "\"`.\n\nThe gravatar_hash of the sender\x27s avatar is `".toList ++ msg.gravatar_hash
    ++ "`, and their avatar_url is `".toList ++ msg.avatar_url
    ++ "`.\n\n".toList

/-- The joined verbose paragraphs, with the destination text `dr` spliced
into the second one. -/
def vBody (msg : Msg) (dr : PyStr) : PyStr := vBodyPre msg ++ dr ++ vBodyPost msg

/-- The destination text of a non-private verbose reply. -/
def streamDestPhrase (msg : Msg) : PyStr :=
  "and sent to display_recipient (or `stream`) `\"".toList
    ++ drValue msg.display_recipient
    ++ "\"`, at subject (or topic) `\"".toList ++ msg.subject
    ++ "\"`".toList

/-- The rendering half of `InfoBot.parse_message`, applied to the record
after its content rewriting. -/
def pmRender (msg : Msg) (priv verbose box : Bool) : PyStr :=
  let display_recipient :=
    if priv = true then parse_display_recipient msg verbose
    else drValue msg.display_recipient
  if verbose = false then
    let parsing := nonVerboseLines msg display_recipient
    let parsing := if box = false then replaceChar tabChar [] parsing else parsing
    parsing ++ hintWantVerbose ++ hintBoxToggle
  else
    let dr2 :=
      if priv = true then display_recipient ++ subjectEmptyPhrase
      else streamDestPhrase msg
    let parsing := vBody msg dr2
    let parsing :=
      if box = true then replaceChar quotChar [] parsing
      else replaceChar btickChar [] parsing
    parsing ++ hintNoVerbose ++ hintBoxToggle

/-- `InfoBot.parse_message`: the reply text, together with the record as
the method leaves it (its content rewritten by `pmMutate`). -/
def parse_message (msg : Msg) (priv verbose box : Bool) : PyStr × Msg :=
  (pmRender (pmMutate msg verbose box) priv verbose box, pmMutate msg verbose box)

/-- Python `pat in s` on strings: `pat` occurs as a contiguous substring
of `s`. -/
def pyContains (pat : PyStr) : PyStr → Bool
  | [] => List.isPrefixOf pat []
  | s@(_ :: rest) => List.isPrefixOf pat s || pyContains pat rest

/-- The value assigned to the outbound `to` entry: a plain string for a
private reply, the raw `display_recipient` value otherwise. -/
inductive ToField where
  | ofStr (s : PyStr)
  | ofDR (d : DisplayRecipient)
deriving DecidableEq

/-- The outbound message `InfoBot.send_message` hands to the client:
exactly the entries `type`, `subject`, `to` and `content`. -/
structure OutMessage where
  type : PyStr
  subject : PyStr
  toField : ToField
  content : PyStr
deriving DecidableEq

/-- `InfoBot.send_message`: the outbound message built from the (already
rewritten) record. -/
def send_message (msg : Msg) : OutMessage :=
  let toData :=
    if msg.type = "private".toList then ToField.ofStr msg.sender_email
    else ToField.ofDR msg.display_recipient
  { type := msg.type, subject := msg.subject, toField := toData, content := msg.content }

/-- `InfoBot.respond`: the record as the callback leaves it, together with
the outbound sends it performs (one when the lowercased content starts
with the lowercased trigger word, none otherwise). -/
def respond (key_word : PyStr) (msg : Msg) : Msg × List OutMessage :=
  let content := lower msg.content
  if List.isPrefixOf (lower key_word) content = true then
    let priv : Bool := decide (msg.type = "private".toList)
    let verbose : Bool :=
      pyContains "-v".toList content || pyContains "--verbose".toList content
    let box : Bool :=
      !(pyContains "-nb".toList content) && !(pyContains "--no-box".toList content)
    let pm := parse_message msg priv verbose box
    let msg2 := { pm.2 with content := pm.1 }
    (msg2, [send_message msg2])
  else (msg, [])

/-- A zulip stream object as returned by the streams endpoint; only its
name is consumed by the bot. -/
structure ZulipStream where
  name : PyStr
deriving DecidableEq

/-- The HTTP response `get_all_zulip_streams` inspects: its status code,
the parsed `streams` entry of its body, and the text Python interpolates
for the response object itself. -/
structure HttpResponse where
  status_code : Nat
  streams : List ZulipStream
  rendered : PyStr
deriving DecidableEq

/-- A raised Python `RuntimeError`, carrying its message. -/
inductive PyError where
  | runtimeError (msg : PyStr)
deriving DecidableEq

/-- The message of the RuntimeError raised on status 401. -/
def authMsg : PyStr := "check your auth".toList

/-- The message of the RuntimeError raised on any other non-200 status,
interpolating the response object. -/
def transportMsg (response : HttpResponse) : PyStr :=
  ":( we failed to GET streams.\n(".toList ++ response.rendered ++ ")".toList

/-- `InfoBot.get_all_zulip_streams`: the streams on status 200, a
RuntimeError otherwise, with the 401 message distinct from the generic
one. -/
def get_all_zulip_streams (response : HttpResponse) :
    Except PyError (List ZulipStream) :=
  if response.status_code = 200 then Except.ok response.streams
  else if response.status_code = 401 then Except.error (PyError.runtimeError authMsg)
  else Except.error (PyError.runtimeError (transportMsg response))

theorem replaceChar_append (o : Char) (n : PyStr) (a b : PyStr) :
    replaceChar o n (a ++ b) = replaceChar o n a ++ replaceChar o n b := by
  induction a with
  | nil => rfl
  | cons c rest ih => simp [replaceChar, ih, List.append_assoc]

theorem replaceChar_of_not_mem {o : Char} {s : PyStr} (n : PyStr) (h : o ∉ s) :
    replaceChar o n s = s := by
  induction s with
  | nil => rfl
  | cons c rest ih =>
    simp only [List.mem_cons, not_or] at h
    have hc : ¬ (c = o) := fun hco => h.1 hco.symm
    simp [replaceChar, hc, ih h.2]

theorem not_mem_replaceChar {o : Char} {n : PyStr} (h : o ∉ n) (s : PyStr) :
    o ∉ replaceChar o n s := by
  induction s with
  | nil => simp [replaceChar]
  | cons c rest ih =>
    by_cases hc : c = o
    · simpa [replaceChar, hc, h] using ih
    · intro hmem
      rcases (by simpa [replaceChar, hc] using hmem : o = c ∨ o ∈ replaceChar o n rest) with h1 | h1
      · exact hc h1.symm
      · exact ih h1

theorem replaceChar_flatten (o : Char) (n : PyStr) (L : List PyStr) :
    replaceChar o n L.flatten = (L.map (replaceChar o n)).flatten := by
  induction L with
  | nil => rfl
  | cons a t ih => simp [replaceChar_append, ih]

theorem removeTab_mutBox (s : PyStr) :
    replaceChar tabChar [] (replaceChar nlChar (nlChar :: sixTabs) s)
      = replaceChar tabChar [] s := by
  induction s with
  | nil => rfl
  | cons c rest ih =>
    by_cases hc : c = nlChar
    · subst hc
      have h6 : replaceChar tabChar [] sixTabs = [] := by decide
      simp [replaceChar, replaceChar_append, h6, ih, show nlChar ≠ tabChar by decide]
    · by_cases ht : c = tabChar
      · subst ht
        simp [replaceChar, hc, ih]
      · simp [replaceChar, hc, ht, ih]

/-- The newline-separated segments of a string (Python-style lines: a
string with `n` newline characters has `n + 1` segments). -/
def splitNl : PyStr → List PyStr
  | [] => [[]]
  | c :: rest =>
    if c = nlChar then [] :: splitNl rest
    else
      match splitNl rest with
      | [] => [[c]]
      | l :: ls => (c :: l) :: ls

theorem splitNl_ne_nil (s : PyStr) : splitNl s ≠ [] := by
  cases s with
  | nil => simp [splitNl]
  | cons c rest =>
    by_cases hc : c = nlChar
    · simp [splitNl, hc]
    · simp only [splitNl, hc, if_false]
      cases splitNl rest <;> simp

theorem splitNl_eq_head_cons (s : PyStr) :
    splitNl s = (splitNl s).headD [] :: (splitNl s).tail := by
  cases h : splitNl s with
  | nil => exact absurd h (splitNl_ne_nil s)
  | cons l ls => rfl

theorem splitNl_append (a s : PyStr) (h : nlChar ∉ a) :
    splitNl (a ++ s) = (a ++ (splitNl s).headD []) :: (splitNl s).tail := by
  induction a with
  | nil => simpa using splitNl_eq_head_cons s
  | cons c rest ih =>
    simp only [List.mem_cons, not_or] at h
    have hc : ¬ (c = nlChar) := fun hcn => h.1 hcn.symm
    have ihr := ih h.2
    show splitNl (c :: (rest ++ s)) = (c :: (rest ++ (splitNl s).headD [])) :: (splitNl s).tail
    rw [show splitNl (c :: (rest ++ s))
          = if c = nlChar then [] :: splitNl (rest ++ s)
            else match splitNl (rest ++ s) with
              | [] => [[c]]
              | l :: ls => (c :: l) :: ls from rfl,
        if_neg hc, ihr]

theorem splitNl_of_not_mem (s : PyStr) (h : nlChar ∉ s) : splitNl s = [s] := by
  have := splitNl_append s [] h
  simpa [splitNl] using this

theorem splitNl_line_cons (a s : PyStr) (h : nlChar ∉ a) :
    splitNl (a ++ nlChar :: s) = a :: splitNl s := by
  rw [splitNl_append a (nlChar :: s) h]
  simp [splitNl]

theorem splitNl_lines (L : List PyStr) (t : PyStr) (h : ∀ l ∈ L, nlChar ∉ l) :
    splitNl ((L.map (fun l => l ++ [nlChar])).flatten ++ t) = L ++ splitNl t := by
  induction L with
  | nil => simp
  | cons a rest ih =>
    have ha : nlChar ∉ a := h a (by simp)
    have hr : ∀ l ∈ rest, nlChar ∉ l := fun l hl => h l (by simp [hl])
    calc splitNl (((a :: rest).map (fun l => l ++ [nlChar])).flatten ++ t)
        = splitNl (a ++ nlChar :: ((rest.map (fun l => l ++ [nlChar])).flatten ++ t)) := by
          simp [List.append_assoc]
      _ = a :: splitNl ((rest.map (fun l => l ++ [nlChar])).flatten ++ t) :=
          splitNl_line_cons _ _ ha
      _ = (a :: rest) ++ splitNl t := by rw [ih hr]; rfl

/-- The trigger word the repository configures (`key_word = "InfoBot"`). -/
def kwIB : PyStr := "InfoBot".toList

/-- A concrete message with simple single-line field values, parameterized
by content, type and display_recipient. -/
def sampleMsg (c ty : PyStr) (dr : DisplayRecipient) : Msg where
  content := c
  recipient_id := "7".toList
  type := ty
  display_recipient := dr
  subject := "lunch".toList
  subject_links := "[]".toList
  id := "42".toList
  timestamp := "99".toList
  content_type := "text/x-markdown".toList
  sender_full_name := "Bob".toList
  sender_short_name := "bob".toList
  sender_id := "2".toList
  sender_email := "b@x.com".toList
  sender_domain := "x.com".toList
  client := "website".toList
  gravatar_hash := "g".toList
  avatar_url := "u".toList

/-- A qualifying stream message with plain content. -/
def exStream : Msg :=
  sampleMsg "InfoBot".toList "stream".toList (DisplayRecipient.stream "general".toList)

/-- A qualifying stream message whose content holds a tab. -/
def exTab : Msg :=
  sampleMsg "InfoBot a\tb".toList "stream".toList (DisplayRecipient.stream "general".toList)

/-- A qualifying stream message whose content holds a newline. -/
def exNl : Msg :=
  sampleMsg "InfoBot a\nb".toList "stream".toList (DisplayRecipient.stream "general".toList)

/-- The recipient record of the specification's private-message example. -/
def alice : Recipient :=
  ⟨"Alice".toList, "alice".toList, "1".toList, "a@x.com".toList, "x.com".toList,
   "False".toList⟩

/-- A second recipient record, for the multi-recipient tense check. -/
def bobRec : Recipient :=
  ⟨"Bob".toList, "bob".toList, "2".toList, "b@x.com".toList, "x.com".toList,
   "False".toList⟩

/-- The specification's private-message example: content `InfoBot -v`,
one recipient, empty subject. -/
def exPrivate : Msg :=
  { sampleMsg "InfoBot -v".toList "private".toList (DisplayRecipient.users [alice]) with
    subject := [] }

/-- The private example with a second recipient appended. -/
def exPrivate2 : Msg :=
  { sampleMsg "InfoBot -v".toList "private".toList (DisplayRecipient.users [alice, bobRec]) with
    subject := [] }

/-- Claim C1: a reply is sent if and only if the lowercased message content
starts with the lowercased trigger word at offset 0, with exactly one
outbound send for a qualifying message and none otherwise. -/
theorem respond_reply_iff_trigger (key_word : PyStr) (msg : Msg) :
    ((respond key_word msg).2.length = 1 ↔ lower key_word <+: lower msg.content)
    ∧ ((respond key_word msg).2 = [] ↔ ¬ lower key_word <+: lower msg.content) := by
  by_cases h : lower key_word <+: lower msg.content
  · have hb : List.isPrefixOf (lower key_word) (lower msg.content) = true :=
      List.isPrefixOf_iff_prefix.2 h
    simp [respond, hb, h]
  · have hb : ¬ List.isPrefixOf (lower key_word) (lower msg.content) = true := by
      rw [List.isPrefixOf_iff_prefix]; exact h
    simp [respond, hb, h]

/-- Claim C8: the stream-listing call returns the parsed stream list on a
200 response, raises the fixed credentials error on 401, and on any other
status raises a different error whose message interpolates the raw
response. -/
theorem get_all_zulip_streams_spec (r : HttpResponse) :
    (r.status_code = 200 → get_all_zulip_streams r = Except.ok r.streams)
    ∧ (r.status_code = 401 →
        get_all_zulip_streams r = Except.error (PyError.runtimeError authMsg))
    ∧ (r.status_code ≠ 200 → r.status_code ≠ 401 →
        get_all_zulip_streams r = Except.error (PyError.runtimeError (transportMsg r))
        ∧ r.rendered <:+: transportMsg r
        ∧ transportMsg r ≠ authMsg) := by
  refine ⟨fun h => by simp [get_all_zulip_streams, h], fun h => by
    simp [get_all_zulip_streams, h], fun h1 h2 => ⟨by
      simp [get_all_zulip_streams, h1, h2], ⟨":( we failed to GET streams.\n(".toList,
      ")".toList, rfl⟩, fun he => ?_⟩⟩
  have h3 : (transportMsg r).headD ' ' = authMsg.headD ' ' := by rw [he]
  have h4 : (transportMsg r).headD ' ' = ':' := rfl
  have h5 : authMsg.headD ' ' = 'c' := rfl
  rw [h4, h5] at h3
  exact absurd h3 (by decide)

/-- Claim C8 witness: the theorem applied to a concrete 404 response. -/
theorem get_all_zulip_streams_spec_witness :
    get_all_zulip_streams ⟨404, [], "<Response [404]>".toList⟩
      = Except.error (PyError.runtimeError
          (transportMsg ⟨404, [], "<Response [404]>".toList⟩)) :=
  ((get_all_zulip_streams_spec ⟨404, [], "<Response [404]>".toList⟩).2.2
    (by decide) (by decide)).1

theorem respond_fst_fields (key_word : PyStr) (msg : Msg) :
    (respond key_word msg).1.type = msg.type
    ∧ (respond key_word msg).1.subject = msg.subject
    ∧ (respond key_word msg).1.display_recipient = msg.display_recipient
    ∧ (respond key_word msg).1.sender_email = msg.sender_email := by
  by_cases hb : List.isPrefixOf (lower key_word) (lower msg.content) = true
  · simp only [respond, hb, if_true]
    exact ⟨rfl, rfl, rfl, rfl⟩
  · simp only [respond, hb, if_false]
    exact ⟨rfl, rfl, rfl, rfl⟩

theorem respond_qualifying (key_word : PyStr) (msg : Msg)
    (hb : List.isPrefixOf (lower key_word) (lower msg.content) = true) :
    (respond key_word msg).2 = [send_message (respond key_word msg).1] := by
  simp [respond, hb]

/-- Claim C7: every outbound reply carries the input type and subject; its
`to` entry is the input display_recipient when the input type is `stream`,
and the sender email when the input type is `private`; the outbound record
consists of exactly the entries type, subject, to and content. -/
theorem outbound_to_and_fields (key_word : PyStr) (msg : Msg) :
    ∀ out ∈ (respond key_word msg).2,
      out.type = msg.type ∧ out.subject = msg.subject
      ∧ (msg.type = "stream".toList → out.toField = ToField.ofDR msg.display_recipient)
      ∧ (msg.type = "private".toList → out.toField = ToField.ofStr msg.sender_email)
      ∧ out = { type := out.type, subject := out.subject, toField := out.toField,
                content := out.content } := by
  intro out hout
  by_cases hb : List.isPrefixOf (lower key_word) (lower msg.content) = true
  · rw [respond_qualifying key_word msg hb] at hout
    simp only [List.mem_singleton] at hout
    subst hout
    obtain ⟨ht, hs, hdr, hse⟩ := respond_fst_fields key_word msg
    have hto : (send_message (respond key_word msg).1).toField
        = if (respond key_word msg).1.type = "private".toList
          then ToField.ofStr (respond key_word msg).1.sender_email
          else ToField.ofDR (respond key_word msg).1.display_recipient := rfl
    refine ⟨ht, hs, fun hst => ?_, fun hpv => ?_, rfl⟩
    · have hne : ¬ ((respond key_word msg).1.type = "private".toList) := by
        rw [ht, hst]; decide
      rw [hto, if_neg hne, hdr]
    · have heq : (respond key_word msg).1.type = "private".toList := by rw [ht, hpv]
      rw [hto, if_pos heq, hse]
  · have : (respond key_word msg).2 = [] := by simp [respond, hb]
    rw [this] at hout
    exact absurd hout (by simp)

/-- Claim C7 witness: the theorem applied to the concrete stream example,
whose single outbound reply goes to the stream `general`. -/
theorem outbound_to_and_fields_witness :
    (send_message (respond kwIB exStream).1).toField
      = ToField.ofDR exStream.display_recipient :=
  (outbound_to_and_fields kwIB exStream (send_message (respond kwIB exStream).1)
    (by rw [respond_qualifying kwIB exStream (by decide)]; simp)).2.2.1 (by decide)

/-- Claim C3 (amended): the dispatch pipeline leaves every field of the
incoming record except `content` unchanged, and leaves a non-qualifying
message entirely unchanged; for a qualifying message the `content` field is
overwritten (with the formatted reply). -/
theorem respond_preserves_other_fields (key_word : PyStr) (msg : Msg) :
    ((respond key_word msg).1.recipient_id = msg.recipient_id
      ∧ (respond key_word msg).1.type = msg.type
      ∧ (respond key_word msg).1.display_recipient = msg.display_recipient
      ∧ (respond key_word msg).1.subject = msg.subject
      ∧ (respond key_word msg).1.subject_links = msg.subject_links
      ∧ (respond key_word msg).1.id = msg.id
      ∧ (respond key_word msg).1.timestamp = msg.timestamp
      ∧ (respond key_word msg).1.content_type = msg.content_type
      ∧ (respond key_word msg).1.sender_full_name = msg.sender_full_name
      ∧ (respond key_word msg).1.sender_short_name = msg.sender_short_name
      ∧ (respond key_word msg).1.sender_id = msg.sender_id
      ∧ (respond key_word msg).1.sender_email = msg.sender_email
      ∧ (respond key_word msg).1.sender_domain = msg.sender_domain
      ∧ (respond key_word msg).1.client = msg.client
      ∧ (respond key_word msg).1.gravatar_hash = msg.gravatar_hash
      ∧ (respond key_word msg).1.avatar_url = msg.avatar_url)
    ∧ (¬ lower key_word <+: lower msg.content → (respond key_word msg).1 = msg) := by
  by_cases hb : List.isPrefixOf (lower key_word) (lower msg.content) = true
  · constructor
    · simp only [respond, hb, if_true]
      exact ⟨rfl, rfl, rfl, rfl, rfl, rfl, rfl, rfl, rfl, rfl, rfl, rfl, rfl, rfl,
        rfl, rfl⟩
    · intro hp
      exact absurd (List.isPrefixOf_iff_prefix.1 hb) hp
  · constructor
    · simp only [respond, hb, if_false]
      exact ⟨rfl, rfl, rfl, rfl, rfl, rfl, rfl, rfl, rfl, rfl, rfl, rfl, rfl, rfl,
        rfl, rfl⟩
    · intro _
      simp [respond, hb]

/-- Claim C3 counterexample: responding to a qualifying message overwrites
its `content` field, so the record is not read-only. -/
theorem respond_mutates_content_counterexample :
    (respond kwIB exStream).1.content ≠ exStream.content := by decide

theorem mutContent_stable (c : PyStr) (verbose box : Bool)
    (h : nlChar ∉ c ∨ verbose = true ∨ box = false) :
    mutContent (mutContent c verbose box) verbose box = mutContent c verbose box := by
  cases verbose with
  | true =>
    have h1 : nlChar ∉ replaceChar nlChar escapedNl c :=
      not_mem_replaceChar (by decide) c
    simp [mutContent, replaceChar_of_not_mem _ h1]
  | false =>
    cases box with
    | false => simp [mutContent]
    | true =>
      have hc : nlChar ∉ c := by
        rcases h with h | h | h
        · exact h
        · exact absurd h (by decide)
        · exact absurd h (by decide)
      simp [mutContent, replaceChar_of_not_mem _ hc]

/-- Claim C2 (amended): the formatter is deterministic in the record value
and the flags, but it rewrites the record's `content` field, so running it
twice in succession on the same record is byte-identical only when the
content holds no newline, or the mode is verbose, or the box flag is off;
the excluded case (a newline in content, non-verbose, boxed) differs. -/
theorem parse_message_repeat (msg : Msg) (priv verbose box : Bool)
    (h : nlChar ∉ msg.content ∨ verbose = true ∨ box = false) :
    (parse_message (parse_message msg priv verbose box).2 priv verbose box).1
      = (parse_message msg priv verbose box).1 := by
  have hm : pmMutate (pmMutate msg verbose box) verbose box
      = pmMutate msg verbose box := by
    have hs := mutContent_stable msg.content verbose box h
    show ({ pmMutate msg verbose box with
            content := mutContent (pmMutate msg verbose box).content verbose box } : Msg)
        = pmMutate msg verbose box
    have hc : (pmMutate msg verbose box).content
        = mutContent msg.content verbose box := rfl
    rw [hc, hs]
    rfl
  show pmRender (pmMutate (pmMutate msg verbose box) verbose box) priv verbose box
      = pmRender (pmMutate msg verbose box) priv verbose box
  rw [hm]

/-- Claim C2 witness: repeating the formatter on the plain stream example
(no newline in its content) reproduces the same bytes. -/
theorem parse_message_repeat_witness :
    (parse_message (parse_message exStream false false true).2 false false true).1
      = (parse_message exStream false false true).1 :=
  parse_message_repeat exStream false false true (Or.inl (by decide))

/-- Claim C2 counterexample: with a newline in the content and non-verbose
boxed flags, the formatter run twice on the record it already rewrote
yields different bytes, so it is not a pure function of an unchanging
input. -/
theorem parse_message_repeat_counterexample :
    (parse_message (parse_message exNl false false true).2 false false true).1
      ≠ (parse_message exNl false false true).1 := by decide

theorem quot_not_mem_stripped_reply (body : PyStr) :
    quotChar ∉ replaceChar quotChar [] body ++ hintNoVerbose ++ hintBoxToggle := by
  intro hmem
  rcases List.mem_append.1 hmem with hmem | hmem
  · rcases List.mem_append.1 hmem with hmem | hmem
    · exact not_mem_replaceChar (by decide) _ hmem
    · exact absurd hmem (by decide)
  · exact absurd hmem (by decide)

set_option maxHeartbeats 1000000 in
/-- Claim C4 (amended): verbose boxed output contains no double-quote
character anywhere; verbose unboxed output is a back-tick-free body
followed by the two trailing hint lines, which do contain back-ticks. -/
theorem verbose_output_chars (msg : Msg) (priv : Bool) :
    quotChar ∉ (parse_message msg priv true true).1
    ∧ ∃ body, (parse_message msg priv true false).1
        = body ++ hintNoVerbose ++ hintBoxToggle ∧ btickChar ∉ body := by
  constructor
  · cases priv with
    | true =>
      have hout : (parse_message msg true true true).1
          = replaceChar quotChar []
              (vBody (pmMutate msg true true)
                (parse_display_recipient (pmMutate msg true true) true
                  ++ subjectEmptyPhrase))
            ++ hintNoVerbose ++ hintBoxToggle := rfl
      rw [hout]
      exact quot_not_mem_stripped_reply _
    | false =>
      have hout : (parse_message msg false true true).1
          = replaceChar quotChar []
              (vBody (pmMutate msg true true) (streamDestPhrase (pmMutate msg true true)))
            ++ hintNoVerbose ++ hintBoxToggle := rfl
      rw [hout]
      exact quot_not_mem_stripped_reply _
  · cases priv with
    | true =>
      exact ⟨replaceChar btickChar []
        (vBody (pmMutate msg true false)
          (parse_display_recipient (pmMutate msg true false) true
            ++ subjectEmptyPhrase)), rfl, not_mem_replaceChar (by decide) _⟩
    | false =>
      exact ⟨replaceChar btickChar []
        (vBody (pmMutate msg true false) (streamDestPhrase (pmMutate msg true false))),
        rfl, not_mem_replaceChar (by decide) _⟩

set_option maxRecDepth 40000 in
/-- Claim C4 counterexample: the verbose unboxed reply to the plain stream
example does contain a back-tick (the trailing hints are appended after
the back-tick stripping). -/
theorem verbose_unboxed_backtick_counterexample :
    btickChar ∈ (parse_message exStream false true false).1 := by decide

theorem rT_line_eq (msg : Msg) (dr : PyStr) (k : FieldKey) :
    replaceChar tabChar [] (tabChar :: (pad20 (FieldKey.name k)
      ++ (if k = FieldKey.display_recipient then dr
          else FieldKey.get k (pmMutate msg false true))
      ++ [nlChar]))
    = replaceChar tabChar [] (tabChar :: (pad20 (FieldKey.name k)
      ++ (if k = FieldKey.display_recipient then dr
          else FieldKey.get k msg)
      ++ [nlChar])) := by
  cases k <;>
    simp [FieldKey.get, pmMutate, mutContent, replaceChar, replaceChar_append,
      removeTab_mutBox]

/-- Claim C6 (amended): the non-verbose unboxed output equals the
non-verbose boxed output with every tab character removed (not only the
leading ones: the unboxed path strips tabs inside field values too). -/
theorem nonverbose_unboxed_eq_boxed_detabbed (msg : Msg) (priv : Bool) :
    (parse_message msg priv false false).1
      = replaceChar tabChar [] (parse_message msg priv false true).1 := by
  have hL : (parse_message msg priv false false).1
      = replaceChar tabChar [] (nonVerboseLines msg
          (if priv = true then parse_display_recipient msg false
           else drValue msg.display_recipient))
        ++ hintWantVerbose ++ hintBoxToggle := rfl
  have hR : (parse_message msg priv false true).1
      = nonVerboseLines (pmMutate msg false true)
          (if priv = true then parse_display_recipient msg false
           else drValue msg.display_recipient)
        ++ hintWantVerbose ++ hintBoxToggle := rfl
  rw [hL, hR, replaceChar_append, replaceChar_append]
  have h1 : replaceChar tabChar [] hintWantVerbose = hintWantVerbose := by decide
  have h2 : replaceChar tabChar [] hintBoxToggle = hintBoxToggle := by decide
  rw [h1, h2]
  congr 2
  rw [nonVerboseLines, nonVerboseLines, replaceChar_flatten, replaceChar_flatten,
    List.map_map, List.map_map]
  congr 1
  apply List.map_congr_left
  intro k _
  simpa [Function.comp] using
    (rT_line_eq msg (if priv = true then parse_display_recipient msg false
      else drValue msg.display_recipient) k).symm

/-- A strip of only line-leading tabs: tabs at the start of the text or
directly after a newline (or after other leading tabs) are removed, tabs
elsewhere are kept. -/
def stripLeadTabsAux : Bool → PyStr → PyStr
  | _, [] => []
  | atStart, c :: rest =>
    if c = nlChar then nlChar :: stripLeadTabsAux true rest
    else if atStart = true ∧ c = tabChar then stripLeadTabsAux true rest
    else c :: stripLeadTabsAux false rest

/-- A strip of only the leading tabs of each line. -/
def stripLeadTabs (s : PyStr) : PyStr := stripLeadTabsAux true s

set_option maxRecDepth 40000 in
/-- Claim C6 counterexample: with a tab inside the content value, removing
only the leading tabs from the boxed non-verbose output does not give the
unboxed output (the unboxed path strips the value's interior tab as well,
so the rendered field values differ between the modes). -/
theorem nonverbose_leading_tabs_counterexample :
    stripLeadTabs (parse_message exTab false false true).1
      ≠ (parse_message exTab false false false).1 := by decide

theorem nvline_point (msg : Msg) (k : FieldKey) :
    tabChar :: (pad20 (FieldKey.name k)
      ++ (if k = FieldKey.display_recipient then drValue msg.display_recipient
          else FieldKey.get k msg) ++ [nlChar])
    = (tabChar :: (pad20 (FieldKey.name k) ++ FieldKey.get k msg)) ++ [nlChar] := by
  have hinfo : (if k = FieldKey.display_recipient then drValue msg.display_recipient
      else FieldKey.get k msg) = FieldKey.get k msg := by
    by_cases h : k = FieldKey.display_recipient
    · rw [if_pos h, h]; rfl
    · rw [if_neg h]
  rw [hinfo]
  simp [List.append_assoc]

theorem nonVerboseLines_as_lines (msg : Msg) :
    nonVerboseLines msg (drValue msg.display_recipient)
      = ((parse_order.map (fun k =>
            tabChar :: (pad20 (FieldKey.name k) ++ FieldKey.get k msg))).map
          (fun l => l ++ [nlChar])).flatten := by
  rw [nonVerboseLines, List.map_map]
  have hfun : (fun k => tabChar :: (pad20 (FieldKey.name k)
      ++ (if k = FieldKey.display_recipient then drValue msg.display_recipient
          else FieldKey.get k msg) ++ [nlChar]))
      = (fun l => l ++ [nlChar])
        ∘ (fun k => tabChar :: (pad20 (FieldKey.name k) ++ FieldKey.get k msg)) := by
    funext k
    exact nvline_point msg k
  rw [hfun]

set_option maxHeartbeats 1000000 in
/-- Claim C5 (amended): for a qualifying stream message none of whose
field values holds a newline, the non-verbose boxed output splits into
exactly 19 newline-separated lines: one tab-prefixed line per field in the
fixed order, with the label left-justified to width 20, followed by the
verbose hint line and the box-toggle hint line. -/
theorem stream_nonverbose_boxed_lines (msg : Msg) (sname : PyStr)
    (_htype : msg.type = "stream".toList)
    (hdr : msg.display_recipient = DisplayRecipient.stream sname)
    (hnl : ∀ k : FieldKey, nlChar ∉ FieldKey.get k msg) :
    splitNl (parse_message msg false false true).1
      = parse_order.map (fun k =>
          tabChar :: (pad20 (FieldKey.name k) ++ FieldKey.get k msg))
        ++ [hintWantVerbose, hintBoxTail]
    ∧ FieldKey.get FieldKey.display_recipient msg = sname
    ∧ (splitNl (parse_message msg false false true).1).length = 19
    ∧ ∀ k : FieldKey, (pad20 (FieldKey.name k)).length = 20 := by
  have hmut : pmMutate msg false true = msg := by
    show ({ msg with content := mutContent msg.content false true } : Msg) = msg
    have hc0 : nlChar ∉ msg.content := hnl FieldKey.content
    have hc : mutContent msg.content false true = msg.content := by
      simp [mutContent, replaceChar_of_not_mem _ hc0]
    rw [hc]
  have h0 : (parse_message msg false false true).1
      = nonVerboseLines (pmMutate msg false true)
          (drValue (pmMutate msg false true).display_recipient)
        ++ hintWantVerbose ++ hintBoxToggle := rfl
  have hsplit : splitNl (parse_message msg false false true).1
      = parse_order.map (fun k =>
          tabChar :: (pad20 (FieldKey.name k) ++ FieldKey.get k msg))
        ++ [hintWantVerbose, hintBoxTail] := by
    rw [h0, hmut, nonVerboseLines_as_lines, List.append_assoc]
    rw [splitNl_lines]
    · have ht : splitNl (hintWantVerbose ++ hintBoxToggle) = [hintWantVerbose, hintBoxTail] := by
        rw [show hintWantVerbose ++ hintBoxToggle = hintWantVerbose ++ nlChar :: hintBoxTail from rfl]
        rw [splitNl_line_cons _ _ (by decide), splitNl_of_not_mem _ (by decide)]
      rw [ht]
    · intro l hl
      rcases List.mem_map.1 hl with ⟨k, _, hk⟩
      subst hk
      intro hmem
      have hpad : ∀ j : FieldKey, nlChar ∉ pad20 (FieldKey.name j) := by decide
      rcases (by simpa using hmem : nlChar = tabChar ∨
          nlChar ∈ pad20 (FieldKey.name k) ∨ nlChar ∈ FieldKey.get k msg) with h | h | h
      · exact absurd h (by decide)
      · exact absurd h (hpad k)
      · exact hnl k h
  refine ⟨hsplit, by rw [show FieldKey.get FieldKey.display_recipient msg
    = drValue msg.display_recipient from rfl, hdr]; rfl, ?_, by decide⟩
  rw [hsplit]
  simp [parse_order]

/-- Claim C5 witness: the theorem applied to the plain stream example,
whose non-verbose boxed reply has 19 lines. -/
theorem stream_nonverbose_boxed_lines_witness :
    (splitNl (parse_message exStream false false true).1).length = 19 :=
  (stream_nonverbose_boxed_lines exStream "general".toList rfl rfl (by decide)).2.2.1

set_option maxRecDepth 40000 in
/-- Claim C5 counterexample: the non-verbose boxed reply to the plain
stream example does not have 17 lines (the two hint lines follow the 17
field lines). -/
theorem stream_nonverbose_17_lines_counterexample :
    (splitNl (parse_message exStream false false true).1).length ≠ 17 := by decide

set_option maxHeartbeats 1000000 in
/-- Claim C10: a private verbose reply always states that the subject was
an empty string, and the reply text does not depend on the actual subject
field of the message (the subject is never rendered). -/
theorem private_verbose_ignores_subject (msg : Msg) (s1 s2 : PyStr) (box : Bool) :
    (parse_message { msg with subject := s1 } true true box).1
      = (parse_message { msg with subject := s2 } true true box).1
    ∧ subjectEmptyPhrase <:+: (parse_message msg true true box).1 := by
  constructor
  · cases box <;> rfl
  · cases box with
    | true =>
      have hb : (parse_message msg true true true).1
          = replaceChar quotChar [] (vBody (pmMutate msg true true)
              (parse_display_recipient (pmMutate msg true true) true
                ++ subjectEmptyPhrase))
            ++ hintNoVerbose ++ hintBoxToggle := rfl
      have hsplit2 : replaceChar quotChar [] (vBody (pmMutate msg true true)
              (parse_display_recipient (pmMutate msg true true) true
                ++ subjectEmptyPhrase))
          = replaceChar quotChar [] (vBodyPre (pmMutate msg true true))
            ++ (replaceChar quotChar []
                  (parse_display_recipient (pmMutate msg true true) true)
                ++ subjectEmptyPhrase)
            ++ replaceChar quotChar [] (vBodyPost (pmMutate msg true true)) := by
        rw [vBody, replaceChar_append, replaceChar_append, replaceChar_append,
          replaceChar_of_not_mem _ (by decide : quotChar ∉ subjectEmptyPhrase)]
      exact ⟨replaceChar quotChar [] (vBodyPre (pmMutate msg true true))
          ++ replaceChar quotChar []
              (parse_display_recipient (pmMutate msg true true) true),
        replaceChar quotChar [] (vBodyPost (pmMutate msg true true))
          ++ hintNoVerbose ++ hintBoxToggle,
        by rw [hb, hsplit2]; simp [List.append_assoc]⟩
    | false =>
      have hb : (parse_message msg true true false).1
          = replaceChar btickChar [] (vBody (pmMutate msg true false)
              (parse_display_recipient (pmMutate msg true false) true
                ++ subjectEmptyPhrase))
            ++ hintNoVerbose ++ hintBoxToggle := rfl
      have hsplit2 : replaceChar btickChar [] (vBody (pmMutate msg true false)
              (parse_display_recipient (pmMutate msg true false) true
                ++ subjectEmptyPhrase))
          = replaceChar btickChar [] (vBodyPre (pmMutate msg true false))
            ++ (replaceChar btickChar []
                  (parse_display_recipient (pmMutate msg true false) true)
                ++ subjectEmptyPhrase)
            ++ replaceChar btickChar [] (vBodyPost (pmMutate msg true false)) := by
        rw [vBody, replaceChar_append, replaceChar_append, replaceChar_append,
          replaceChar_of_not_mem _ (by decide : btickChar ∉ subjectEmptyPhrase)]
      exact ⟨replaceChar btickChar [] (vBodyPre (pmMutate msg true false))
          ++ replaceChar btickChar []
              (parse_display_recipient (pmMutate msg true false) true),
        replaceChar btickChar [] (vBodyPost (pmMutate msg true false))
          ++ hintNoVerbose ++ hintBoxToggle,
        by rw [hb, hsplit2]; simp [List.append_assoc]⟩

/-- The start of the destination paragraph the specification's example
expects (after the boxed quote stripping), preceded by the two newlines
the recipient template emits. -/
def destPrefix9 : PyStr :=
  "\n\nThe message was sent to a zulip user with the full_name `Alice`".toList

/-- The sent-to phrase for the first recipient of the example. -/
def phraseTo9 : PyStr :=
  "The message was sent to a zulip user with the full_name `Alice`".toList

/-- The sent-by phrase for a second recipient. -/
def phraseBy9 : PyStr :=
  "The message was sent by a zulip user with the full_name `Bob`".toList

set_option maxRecDepth 100000 in
set_option maxHeartbeats 2000000 in
/-- Claim C9: on the specification's private-message example the
destination paragraph begins with the sent-to sentence naming `Alice`, the
full reply contains it, and with a second recipient the reply switches to
the sent-by verb. -/
theorem private_verbose_example :
    List.isPrefixOf destPrefix9
      (replaceChar quotChar [] (parse_display_recipient exPrivate true)) = true
    ∧ phraseTo9 <:+: ((respond kwIB exPrivate).2.map OutMessage.content).flatten
    ∧ phraseBy9 <:+: ((respond kwIB exPrivate2).2.map OutMessage.content).flatten := by
  decide
